import Mathlib

/-!
Verification development for the TGBubbleMap Telegram bot
(src/telegram-bot/bot.py), a shallow embedding of its
resolution-and-composition pipeline.

Modelling conventions:
  - Python numbers (24h volume, liquidity, market cap, FDV, scores,
    percentages) are modelled as rationals (ℚ).  CPython formats floats
    with `:.2f`; we model this as fixed two-decimal rounding of the exact
    rational (the binary64 detour and tie-breaking mode are not modelled:
    no claim exercises a tie).
  - Dictionary fields that may be absent are `Option` fields; a `.get`
    with default is `Option.getD`.
  - Network calls are explicit arguments: each external provider's
    response (or fault) is passed into the function that the Python code
    lets perform the call.  A raised-and-caught exception is a dedicated
    constructor carrying the stringified cause.
-/

/-! ## Python string primitives

`str.lower()`, `str.upper()` and `str.startswith(...)` modelled through
`List Char` (ASCII case mapping, which is all the chain ids and the `0x`
test need). -/

def strLower (s : String) : String := ⟨s.toList.map Char.toLower⟩

def strUpper (s : String) : String := ⟨s.toList.map Char.toUpper⟩

def strStartsWith (s pre : String) : Bool :=
  pre.toList.isPrefixOf s.toList

/-! ## Base-58 address validation (bot.py `is_base58`, lines 31-36)

The `base58` library's `b58decode` strips trailing whitespace, treats each
leading '1' as one zero byte, interprets the remaining characters as a
base-58 big-endian integer over the Bitcoin alphabet, and renders that
integer with its minimal number of bytes; any character outside the
alphabet raises.  `is_base58` only observes the decoded byte length, so we
model exactly that length (`none` = the decode raised). -/

def BASE58_ALPHABET : String :=
  "123456789ABCDEFGHJKLMNPQRSTUVWXYZabcdefghijkmnopqrstuvwxyz"

def b58digit (c : Char) : Option Nat :=
  BASE58_ALPHABET.toList.findIdx? (fun d => d == c)

/-- Bit length of a natural number, Python's `n.bit_length()`;
the fuel argument (instantiated with `n` itself) only makes the
recursion structural. -/
def bitLengthAux : Nat → Nat → Nat
  | 0, _ => 0
  | fuel + 1, n => if n = 0 then 0 else bitLengthAux fuel (n / 2) + 1

def bitLength (n : Nat) : Nat := bitLengthAux n n

/-- Minimal big-endian byte length of a natural number, as Python's
`(n.bit_length() + 7) // 8`. -/
def byteLength (n : Nat) : Nat :=
  (bitLength n + 7) / 8

def b58decodedLength (s : String) : Option Nat :=
  let cs := (s.toList.reverse.dropWhile Char.isWhitespace).reverse
  let stripped := cs.dropWhile (fun c => c == '1')
  match stripped.mapM b58digit with
  | none => none
  | some ds =>
      some ((cs.length - stripped.length)
            + byteLength (ds.foldl (fun acc d => acc * 58 + d) 0))

def is_base58 (address : String) : Bool :=
  match b58decodedLength address with
  | some n => n == 32
  | none => false

/-! ## Chain registry (bot.py `CHAIN_MAPPING`, lines 39-50) -/

def CHAIN_MAPPING : List (String × String) :=
  [("ethereum", "eth"), ("bsc", "bsc"), ("fantom", "ftm"),
   ("avalanche", "avax"), ("cronos", "cro"), ("arbitrum", "arbi"),
   ("polygon", "poly"), ("base", "base"), ("solana", "sol"),
   ("sonic", "sonic")]

/-- `CHAIN_MAPPING.get(chain_id)`. -/
def chainMappingGet (k : String) : Option String :=
  (CHAIN_MAPPING.find? (fun kv => kv.1 == k)).map (fun kv => kv.2)

/-! ## Number formatting (bot.py `format_number`, lines 249-268) -/

def pad2 (n : Nat) : String :=
  if n < 10 then "0" ++ toString n else toString n

/-- Round a rational to the nearest integer (used for two-decimal
rendering). -/
def roundQ (q : ℚ) : ℤ := ⌊q + 1 / 2⌋

/-- Fixed two-decimal rendering of a rational, Python's `f"{x:.2f}"`. -/
def formatQ2 (q : ℚ) : String :=
  if roundQ (q * 100) < 0 then
    "-" ++ toString (-roundQ (q * 100) / 100) ++ "."
        ++ pad2 ((-roundQ (q * 100)) % 100).toNat
  else
    toString (roundQ (q * 100) / 100) ++ "."
        ++ pad2 (roundQ (q * 100) % 100).toNat

/-- bot.py `format_number` on a numeric argument (the string branch merely
converts to a number first or returns the string unchanged; every call
site in the message composition passes a number). -/
def format_number (number : ℚ) : String :=
  if number ≥ 1000000000000 then formatQ2 (number / 1000000000000) ++ "T"
  else if number ≥ 1000000000 then formatQ2 (number / 1000000000) ++ "B"
  else if number ≥ 1000000 then formatQ2 (number / 1000000) ++ "M"
  else if number ≥ 1000 then formatQ2 (number / 1000) ++ "K"
  else formatQ2 number

/-! ## Market lookup (bot.py `get_token_info`, lines 123-196)

A DexScreener pair object.  Nested dictionary accesses are collapsed into
one optional field: `volume_h24` stands for `'volume' in pair and 'h24' in
pair['volume']` (present iff both keys are), `liquidity_usd` for
`pair.get('liquidity', {}).get('usd', 'Unknown')`. -/

structure BaseToken where
  name : Option String
  symbol : Option String
deriving DecidableEq

structure TradingPair where
  chainId : Option String
  baseToken : Option BaseToken
  priceUsd : Option String
  priceNative : Option String
  liquidity_usd : Option ℚ
  marketCap : Option ℚ
  fdv : Option ℚ
  volume_h24 : Option ℚ
  pairAddress : Option String
  dexId : Option String
deriving DecidableEq

/-- One iteration of the `for pair in pairs` loop of `get_token_info`
(lines 138-144): the accumulator is `(highest_volume_pair,
highest_volume)`, initially `(None, 0)`. -/
def selectStep (acc : Option TradingPair × ℚ) (p : TradingPair) :
    Option TradingPair × ℚ :=
  match p.volume_h24 with
  | some v => if v > acc.2 then (some p, v) else acc
  | none => acc

def highest_volume_pair (pairs : List TradingPair) :
    Option TradingPair × ℚ :=
  pairs.foldl selectStep (none, 0)

/-- Line 147: `pair = highest_volume_pair if highest_volume_pair else
pairs[0]` (as an `Option` so it is total on `[]`). -/
def selected_pair (pairs : List TradingPair) : Option TradingPair :=
  match (highest_volume_pair pairs).1 with
  | some p => some p
  | none => pairs.head?

/-- The market-data provider's response as observed inside the
`try`/`except` of `get_token_info`: either a raised exception
(transport/parse fault, stringified cause) or a parsed JSON body whose
`pairs` key may be absent. -/
inductive MarketResponse where
  | fault (cause : String)
  | ok (pairs : Option (List TradingPair))
deriving DecidableEq

/-- The `token_info` dictionary built at lines 177-191. -/
structure TokenInfo where
  address : String
  name : String
  symbol : String
  chain : String
  chain_original : String
  price_usd : String
  price_native : String
  liquidity_usd : Option ℚ
  market_cap : Option ℚ
  fdv : Option ℚ
  volume_h24 : Option ℚ
  pair_address : String
  dex : String
deriving DecidableEq

/-- bot.py `get_token_info`, lines 133-191: the part of the function run
on a non-empty `pairs` list (selection, chain resolution and
`token_info` construction). -/
def get_token_info_pairs (token_address : String) (first : TradingPair)
    (rest : List TradingPair) : Except String TokenInfo :=
  let pairs := first :: rest
  let highest_volume := (highest_volume_pair pairs).2
  let pair := (selected_pair pairs).getD first
  let chain_id := strLower (pair.chainId.getD "")
  match chainMappingGet chain_id with
  | none => .error ("Chain " ++ chain_id ++ " not supported for bubble maps.")
  | some our_chain =>
      let base_token := pair.baseToken.getD ⟨none, none⟩
      .ok
        { address := token_address
          name := base_token.name.getD "Unknown"
          symbol := base_token.symbol.getD "Unknown"
          chain := our_chain
          chain_original := chain_id
          price_usd := pair.priceUsd.getD "Unknown"
          price_native := pair.priceNative.getD "Unknown"
          liquidity_usd := pair.liquidity_usd
          market_cap := pair.marketCap
          fdv := pair.fdv
          volume_h24 := if highest_volume > 0 then some highest_volume else none
          pair_address := pair.pairAddress.getD "Unknown"
          dex := pair.dexId.getD "Unknown" }

/-- bot.py `get_token_info` (lines 123-196); the Python pair
`(token_info, error)` with exactly one side set becomes an `Except`:
`.error e` is `(None, e)` and `.ok t` is `(t, None)`. -/
def get_token_info (token_address : String) (resp : MarketResponse) :
    Except String TokenInfo :=
  match resp with
  | .fault cause => .error ("Error fetching token info: " ++ cause)
  | .ok none =>
      .error "No token information found. Please verify the contract address."
  | .ok (some []) =>
      .error "No token information found. Please verify the contract address."
  | .ok (some (first :: rest)) => get_token_info_pairs token_address first rest

/-! ## Holder metadata and message composition
(bot.py `get_bubblemap_metadata` lines 199-208,
`format_token_info_message` lines 210-247)

`format_token_info_message` itself calls `get_bubblemap_metadata`
(line 234), i.e. it performs a network request of its own.  The shallow
embedding therefore takes the metadata provider's response as an explicit
second argument. -/

structure IdentifiedSupply where
  percent_in_cexs : Option ℚ
  percent_in_contracts : Option ℚ
deriving DecidableEq

structure MapMetadata where
  decentralisation_score : Option ℚ
  identified_supply : Option IdentifiedSupply
deriving DecidableEq

/-- Result of the `get_bubblemap_metadata` call as consumed by
`if metadata and not error:` (line 235).
`fail` is the exception path (returns `(None, "Error fetching bubble map
metadata: ...")`), `empty` a 200 response whose JSON body is falsy (so
the `if` is skipped), `found` a 200 response with a truthy JSON object. -/
inductive MetadataResult where
  | fail (cause : String)
  | empty
  | found (m : MapMetadata)
deriving DecidableEq

/-- Lines 219-221: the conditionally included 24h-volume line (empty when
`volume_h24` is the `'Unknown'` placeholder). -/
def volume_line (t : TokenInfo) : String :=
  match t.volume_h24 with
  | some v => "📊 *24h Volume:* $" ++ format_number v ++ "\n"
  | none => ""

/-- Lines 212-231: the part of the composed message built before the
metadata call. -/
def baseTokenInfoMessage (t : TokenInfo) : String :=
  "*" ++ t.name ++ " (" ++ t.symbol ++ ")*\n\n"
  ++ "🔗 *Chain:* " ++ strUpper t.chain_original ++ "\n"
  ++ "📝 *Contract:* `" ++ t.address ++ "`\n"
  ++ "💰 *Price:* $" ++ t.price_usd ++ "\n"
  ++ volume_line t
  ++ (match t.liquidity_usd with
      | some v => "💧 *Liquidity:* $" ++ format_number v ++ "\n"
      | none => "")
  ++ (match t.market_cap with
      | some v => "📈 *Market Cap:* $" ++ format_number v ++ "\n"
      | none => "")
  ++ (match t.fdv with
      | some v => "🌐 *FDV:* $" ++ format_number v ++ "\n"
      | none => "")

/-- Lines 233-245: the metadata block appended when the fetch returned a
truthy object. -/
def metadataBlock (meta : MetadataResult) : String :=
  match meta with
  | .fail _ => ""
  | .empty => ""
  | .found m =>
      "\n*BubbleMap Metrics:*\n"
      ++ (match m.decentralisation_score with
          | some s => "🏆 *Decentralization Score:* " ++ formatQ2 s ++ "/100\n"
          | none => "")
      ++ (match m.identified_supply with
          | some su =>
              (match su.percent_in_cexs with
               | some p => "📊 *% in CEXs:* " ++ formatQ2 p ++ "%\n"
               | none => "")
              ++ (match su.percent_in_contracts with
                  | some p => "📝 *% in Contracts:* " ++ formatQ2 p ++ "%\n"
                  | none => "")
          | none => "")

/-- bot.py `format_token_info_message` (lines 210-247), with the response
of the metadata call it performs passed explicitly. -/
def format_token_info_message (t : TokenInfo) (meta : MetadataResult) :
    String :=
  "*" ++ t.name ++ " (" ++ t.symbol ++ ")*\n\n"
  ++ "🔗 *Chain:* " ++ strUpper t.chain_original ++ "\n"
  ++ "📝 *Contract:* `" ++ t.address ++ "`\n"
  ++ "💰 *Price:* $" ++ t.price_usd ++ "\n"
  ++ volume_line t
  ++ (match t.liquidity_usd with
      | some v => "💧 *Liquidity:* $" ++ format_number v ++ "\n"
      | none => "")
  ++ (match t.market_cap with
      | some v => "📈 *Market Cap:* $" ++ format_number v ++ "\n"
      | none => "")
  ++ (match t.fdv with
      | some v => "🌐 *FDV:* $" ++ format_number v ++ "\n"
      | none => "")
  ++ metadataBlock meta

/-! ## Substring test (Python's `in` on strings) -/

def isSublistOf (pat : List Char) : List Char → Bool
  | [] => pat.isEmpty
  | c :: t => pat.isPrefixOf (c :: t) || isSublistOf pat t

/-- Python `pat in hay` on strings. -/
def strIn (pat hay : String) : Bool :=
  isSublistOf pat.toList hay.toList

/-! ## Rendering stage and pipeline
(bot.py `process_token_address`, lines 290-387)

The rendering service's response as observed in the `except
requests.RequestException` handler (lines 360-379): the exception may
carry no response at all; a carried response body either parses as JSON
(whose `error` key may be absent) or does not (then its raw text is
inspected). -/

inductive ErrBody where
  | jsonBody (errField : Option String)
  | textBody (text : String)
deriving DecidableEq

inductive RenderResult where
  | ok
  | fail (resp : Option ErrBody)
deriving DecidableEq

/-- Lines 363-379: the `error_message` computed from a failed rendering
request (`chain` is the resolved internal chain id, used by the
"Token not found" branch). -/
def renderErrorMessage (chain : String) (resp : Option ErrBody) : String :=
  match resp with
  | none => "Error generating bubble map.\n\n"
  | some (.jsonBody none) => "Error generating bubble map.\n\n"
  | some (.jsonBody (some err)) =>
      if strIn "Map not computed. API key required" err then
        "No bubble map data available for this token.\n\n"
      else if strIn "Token not found" err then
        "Token not found on " ++ chain ++ ".\n\n"
      else err ++ "\n\n"
  | some (.textBody t) =>
      if t ≠ "" ∧ t.length < 200 then t ++ "\n\n"
      else "Error generating bubble map.\n\n"

/-- What the user ends up seeing from one `process_token_address` run:
the reply "Invalid token address format..." (line 294), the status
message edited to a terminal error text (lines 306-311), a photo whose
caption is the composed message (lines 343-350), or — when the image
request failed — the status message edited to the failure reason followed
by the composed message (lines 382-387). -/
inductive Outcome where
  | invalidAddress
  | statusEdit (text : String)
  | photo (caption : String)
  | degradedText (text : String)
deriving DecidableEq

/-- One run's observable result, together with which external requests
were issued. -/
structure RunResult where
  outcome : Outcome
  marketRequested : Bool
  imageRequested : Bool
deriving DecidableEq

/-- The external world for one run: the three provider responses. -/
structure PipelineEnv where
  market : MarketResponse
  metadata : MetadataResult
  render : RenderResult
deriving DecidableEq

/-- bot.py `process_token_address` (lines 290-387). -/
def process_token_address (token_address : String) (env : PipelineEnv) :
    RunResult :=
  if ¬ (strStartsWith token_address "0x" ∧ token_address.length ≥ 40)
      ∧ ¬ is_base58 token_address then
    { outcome := .invalidAddress, marketRequested := false,
      imageRequested := false }
  else
    match get_token_info token_address env.market with
    | .error e =>
        { outcome := .statusEdit e, marketRequested := true,
          imageRequested := false }
    | .ok token_info =>
        let token_info_message := format_token_info_message token_info env.metadata
        match env.render with
        | .ok =>
            { outcome := .photo token_info_message, marketRequested := true,
              imageRequested := true }
        | .fail resp =>
            { outcome := .degradedText
                (renderErrorMessage token_info.chain resp ++ token_info_message),
              marketRequested := true, imageRequested := true }

/-! ## Conversation state
(bot.py `bubblemap_command` lines 270-288, `handle_text_input` lines
390-410, and the other handlers, none of which touch
`context.user_data`)

The flag is the value of `context.user_data['waiting_for']`, `none` when
the key is absent.  Each handler returns the new flag value and whether
it invoked `process_token_address`. -/

def bubblemap_command (flag : Option String) (args : List String) :
    Option String × Bool :=
  match args with
  | [] => (some "token_address", false)
  | _ :: _ => (flag, true)

def handle_text_input (flag : Option String) : Option String × Bool :=
  match flag with
  | some w => if w = "token_address" then (none, true) else (flag, false)
  | none => (none, false)

/-- An incoming update, as routed by the handlers registered in `main`:
the `/bubblemap` command with its arguments, a non-command text message,
or any of the other handlers (`/start`, `/help`, `/menu`, button
callbacks), which never read or write `waiting_for`. -/
inductive TgEvent where
  | cmdBubblemap (args : List String)
  | textMsg (text : String)
  | other
deriving DecidableEq

def dispatch (flag : Option String) (e : TgEvent) : Option String × Bool :=
  match e with
  | .cmdBubblemap args => bubblemap_command flag args
  | .textMsg _ => handle_text_input flag
  | .other => (flag, false)

/-! ## Selection characterizations used by the claims about
`get_token_info`'s pair selection -/

/-- Greatest reported 24h volume in `pairs`, at least `b` (the running
maximum of the selection loop with seed `b`). -/
def maxRep (pairs : List TradingPair) (b : ℚ) : ℚ :=
  pairs.foldl
    (fun m p => match p.volume_h24 with
      | some v => max m v
      | none => m) b

/-- Greatest 24h volume among the pairs that report one, `none` when no
pair reports a volume field. -/
def bestReported (pairs : List TradingPair) : Option ℚ :=
  pairs.foldl
    (fun m p => match p.volume_h24, m with
      | some v, some m0 => some (max m0 v)
      | some v, none => some v
      | none, m0 => m0) none

/-- Does `p` report a 24h volume equal to `m`? -/
def volEq (m : ℚ) (p : TradingPair) : Bool :=
  decide (p.volume_h24 = some m)

/-- The selection rule in the claim's own words: the pair with the
greatest reported 24h volume, ties broken by input order (first
occurrence wins); the first pair when no pair reports a 24h volume
field. -/
def claimSelectedPair (pairs : List TradingPair) : Option TradingPair :=
  match bestReported pairs with
  | some best => pairs.find? (volEq best)
  | none => pairs.head?

/-- The amended selection rule: the pair with the greatest 24h volume
among pairs reporting a strictly positive one, ties broken by input
order; the first pair when no pair reports a strictly positive 24h
volume. -/
def amendedSelectedPair (pairs : List TradingPair) : Option TradingPair :=
  if 0 < maxRep pairs 0 then pairs.find? (volEq (maxRep pairs 0))
  else pairs.head?

/-! ## Concrete inputs used by witnesses and counterexamples -/

/-- A pair that reports no 24h volume field. -/
def pairNoVol : TradingPair :=
  { chainId := some "ethereum", baseToken := none, priceUsd := none,
    priceNative := none, liquidity_usd := none, marketCap := none,
    fdv := none, volume_h24 := none, pairAddress := none,
    dexId := some "dexA" }

/-- A pair that explicitly reports a 24h volume of 0. -/
def pairZeroVol : TradingPair :=
  { pairNoVol with volume_h24 := some 0, dexId := some "dexB" }

def pairVol (v : ℚ) : TradingPair :=
  { pairNoVol with volume_h24 := some v }

/-- A syntactically valid hex-family address (length 42). -/
def addrHex : String := "0xc00e94cb662c3520282e6f5717214004a7f26888"

/-- The token info that `get_token_info` resolves for `addrHex` when the
market response holds exactly `[pairNoVol]`. -/
def infoEthNoVol : TokenInfo :=
  { address := addrHex, name := "Unknown", symbol := "Unknown",
    chain := "eth", chain_original := "ethereum",
    price_usd := "Unknown", price_native := "Unknown",
    liquidity_usd := none, market_cap := none, fdv := none,
    volume_h24 := none, pair_address := "Unknown", dex := "dexA" }

/-! # Theorems -/

/-! ## Helper lemmas -/

theorem roundQ_eq (q : ℚ) (n : ℤ) (h₁ : (n : ℚ) ≤ q + 1 / 2)
    (h₂ : q + 1 / 2 < n + 1) : roundQ q = n := by
  unfold roundQ
  rw [Int.floor_eq_iff]
  exact ⟨h₁, by exact_mod_cast h₂⟩

theorem formatQ2_of_roundQ (q : ℚ) (n : ℤ) (h : roundQ (q * 100) = n) :
    formatQ2 q =
      if n < 0 then
        "-" ++ toString (-n / 100) ++ "." ++ pad2 ((-n) % 100).toNat
      else
        toString (n / 100) ++ "." ++ pad2 (n % 100).toNat := by
  unfold formatQ2
  rw [h]

theorem le_maxRep (xs : List TradingPair) : ∀ b : ℚ, b ≤ maxRep xs b := by
  induction xs with
  | nil => intro b; simp [maxRep]
  | cons p xs ih =>
    intro b
    cases hv : p.volume_h24 with
    | none =>
      simp only [maxRep, List.foldl_cons, hv]
      exact ih b
    | some v =>
      simp only [maxRep, List.foldl_cons, hv]
      exact le_trans (le_max_left b v) (ih (max b v))

theorem maxRep_attained (xs : List TradingPair) :
    ∀ b : ℚ, b < maxRep xs b →
      ∃ p ∈ xs, p.volume_h24 = some (maxRep xs b) := by
  induction xs with
  | nil => intro b h; simp [maxRep] at h
  | cons p xs ih =>
    intro b h
    cases hv : p.volume_h24 with
    | none =>
      have hm : maxRep (p :: xs) b = maxRep xs b := by
        simp only [maxRep, List.foldl_cons, hv]
      rw [hm] at h ⊢
      obtain ⟨q, hq, hqv⟩ := ih b h
      exact ⟨q, List.mem_cons_of_mem _ hq, hqv⟩
    | some v =>
      by_cases hvb : b < v
      · have hm : maxRep (p :: xs) b = maxRep xs v := by
          simp only [maxRep, List.foldl_cons, hv]
          rw [max_eq_right (le_of_lt hvb)]
        rw [hm] at h ⊢
        by_cases hc : v < maxRep xs v
        · obtain ⟨q, hq, hqv⟩ := ih v hc
          exact ⟨q, List.mem_cons_of_mem _ hq, hqv⟩
        · have hM : maxRep xs v = v := le_antisymm (not_lt.mp hc) (le_maxRep xs v)
          rw [hM]
          exact ⟨p, List.mem_cons_self _ _, by rw [hv]⟩
      · have hm : maxRep (p :: xs) b = maxRep xs b := by
          simp only [maxRep, List.foldl_cons, hv]
          rw [max_eq_left (not_lt.mp hvb)]
        rw [hm] at h ⊢
        obtain ⟨q, hq, hqv⟩ := ih b h
        exact ⟨q, List.mem_cons_of_mem _ hq, hqv⟩

/-- Closed form of the `for pair in pairs` selection loop: starting from
accumulator `(o, b)`, the loop returns the first pair whose reported
volume equals the maximum reported volume when that maximum exceeds `b`,
and leaves the accumulator untouched otherwise. -/
theorem foldl_selectStep_eq (xs : List TradingPair) :
    ∀ (o : Option TradingPair) (b : ℚ),
      xs.foldl selectStep (o, b) =
        if b < maxRep xs b then
          (xs.find? (volEq (maxRep xs b)), maxRep xs b)
        else (o, b) := by
  induction xs with
  | nil => intro o b; simp [maxRep]
  | cons p xs ih =>
    intro o b
    cases hv : p.volume_h24 with
    | none =>
      have hm : maxRep (p :: xs) b = maxRep xs b := by
        simp only [maxRep, List.foldl_cons, hv]
      simp only [List.foldl_cons, selectStep, hv]
      rw [hm, ih o b]
      by_cases hc : b < maxRep xs b
      · rw [if_pos hc, if_pos hc]
        have hp : ¬ volEq (maxRep xs b) p := by
          simp [volEq, hv]
        rw [List.find?_cons_of_neg _ hp]
      · rw [if_neg hc, if_neg hc]
    | some v =>
      by_cases hvb : b < v
      · have hm : maxRep (p :: xs) b = maxRep xs v := by
          simp only [maxRep, List.foldl_cons, hv]
          rw [max_eq_right (le_of_lt hvb)]
        simp only [List.foldl_cons, selectStep, hv, if_pos hvb]
        rw [hm, ih (some p) v]
        have hvM : v ≤ maxRep xs v := le_maxRep xs v
        by_cases hc : v < maxRep xs v
        · rw [if_pos hc, if_pos (lt_trans hvb hc)]
          have hp : ¬ volEq (maxRep xs v) p := by
            simp [volEq, hv]
            exact ne_of_lt hc
          rw [List.find?_cons_of_neg _ hp]
        · have hM : maxRep xs v = v := le_antisymm (not_lt.mp hc) hvM
          rw [if_neg hc, hM, if_pos hvb]
          have hp : volEq v p := by
            simp [volEq, hv]
          rw [List.find?_cons_of_pos _ hp]
      · have hm : maxRep (p :: xs) b = maxRep xs b := by
          simp only [maxRep, List.foldl_cons, hv]
          rw [max_eq_left (not_lt.mp hvb)]
        simp only [List.foldl_cons, selectStep, hv, if_neg hvb]
        rw [hm, ih o b]
        by_cases hc : b < maxRep xs b
        · rw [if_pos hc, if_pos hc]
          have hp : ¬ volEq (maxRep xs b) p := by
            simp [volEq, hv]
            exact ne_of_lt (lt_of_le_of_lt (not_lt.mp hvb) hc)
          rw [List.find?_cons_of_neg _ hp]
        · rw [if_neg hc, if_neg hc]

/-- If every reported volume in `xs` is at most `b`, the running maximum
stays `b`. -/
theorem maxRep_eq_of_le (xs : List TradingPair) :
    ∀ b : ℚ, (∀ p ∈ xs, ∀ v : ℚ, p.volume_h24 = some v → v ≤ b) →
      maxRep xs b = b := by
  induction xs with
  | nil => intro b _; simp [maxRep]
  | cons p xs ih =>
    intro b hall
    cases hv : p.volume_h24 with
    | none =>
      simp only [maxRep, List.foldl_cons, hv]
      exact ih b (fun q hq v hqv => hall q (List.mem_cons_of_mem _ hq) v hqv)
    | some v =>
      have hvb : v ≤ b := hall p (List.mem_cons_self _ _) v hv
      simp only [maxRep, List.foldl_cons, hv]
      rw [max_eq_left hvb]
      exact ih b (fun q hq v hqv => hall q (List.mem_cons_of_mem _ hq) v hqv)

/-- When the address passes the format check, `process_token_address`
is the market-lookup / composition / rendering cascade. -/
theorem process_accepted (addr : String) (env : PipelineEnv)
    (hacc : (strStartsWith addr "0x" = true ∧ addr.length ≥ 40)
            ∨ is_base58 addr = true) :
    process_token_address addr env =
      match get_token_info addr env.market with
      | .error e =>
          ⟨.statusEdit e, true, false⟩
      | .ok info =>
          match env.render with
          | .ok => ⟨.photo (format_token_info_message info env.metadata),
                    true, true⟩
          | .fail resp =>
              ⟨.degradedText (renderErrorMessage info.chain resp
                 ++ format_token_info_message info env.metadata),
               true, true⟩ := by
  unfold process_token_address
  rw [if_neg]
  · rcases hacc with ⟨h1, h2⟩ | h
    · exact fun hc => hc.1 ⟨h1, h2⟩
    · exact fun hc => hc.2 h

/-- The selection of `get_token_info` equals the amended rule. -/
theorem selected_pair_eq_amended (pairs : List TradingPair) :
    selected_pair pairs = amendedSelectedPair pairs := by
  unfold selected_pair highest_volume_pair amendedSelectedPair
  rw [foldl_selectStep_eq pairs none 0]
  by_cases hc : (0 : ℚ) < maxRep pairs 0
  · rw [if_pos hc, if_pos hc]
    obtain ⟨q, hq, hqv⟩ := maxRep_attained pairs 0 hc
    cases hfind : pairs.find? (volEq (maxRep pairs 0)) with
    | none =>
      exfalso
      have h2 := List.find?_eq_none.mp hfind q hq
      simp [volEq, hqv] at h2
    | some r => rfl
  · rw [if_neg hc, if_neg hc]

/-- C1 counterexample: with a volume-less pair followed by a pair
reporting a 24h volume of 0, the claim's selection rule (greatest
reported volume, fall back to the first pair only when no pair reports a
volume field) picks the second pair, while the code picks the first. -/
theorem selection_claim_counterexample :
    claimSelectedPair [pairNoVol, pairZeroVol] = some pairZeroVol
    ∧ selected_pair [pairNoVol, pairZeroVol] = some pairNoVol
    ∧ pairNoVol ≠ pairZeroVol := by
  refine ⟨by decide, by decide, by decide⟩

/-- C1 (amended): for every list of trading pairs, `get_token_info`'s
selection (`selected_pair`, line 147 of bot.py) picks the pair with the
greatest 24h volume among the pairs reporting a strictly positive one,
breaking ties by input order (first occurrence wins); when no pair
reports a strictly positive 24h volume — including when some pair
explicitly reports 0 — it falls back to the first pair in provider
response order. -/
theorem selection_rule_amended (pairs : List TradingPair) :
    selected_pair pairs = amendedSelectedPair pairs :=
  selected_pair_eq_amended pairs

/-- The composed message factors into the pure base part and the
metadata block. -/
theorem format_factors (t : TokenInfo) (meta : MetadataResult) :
    format_token_info_message t meta
      = baseTokenInfoMessage t ++ metadataBlock meta := rfl

/-- A failed metadata fetch leaves exactly the base message. -/
theorem format_fail (t : TokenInfo) (cause : String) :
    format_token_info_message t (.fail cause) = baseTokenInfoMessage t := by
  rw [format_factors]
  exact String.append_empty _

theorem isSublistOf_append_right (pat : List Char) :
    ∀ pre : List Char, isSublistOf pat (pre ++ pat) = true := by
  intro pre
  induction pre with
  | nil =>
    cases pat with
    | nil => rfl
    | cons c t =>
      show isSublistOf (c :: t) (c :: t) = true
      simp [isSublistOf]
  | cons c pre ih =>
    simp [isSublistOf, ih]

/-- Python `pat in (pre + pat)` is true. -/
theorem strIn_append_right (pre pat : String) :
    strIn pat (pre ++ pat) = true := by
  unfold strIn
  have h : (pre ++ pat).toList = pre.toList ++ pat.toList := by
    simp [String.toList]
  rw [h]
  exact isSublistOf_append_right _ _

/-- C5 (amended): message composition is deterministic in the pair of a
ResolvedToken and the holder-metadata provider's response: it factors as
a base part depending only on the token info, followed by a metadata
block depending only on the provider response.  It is not a pure
function of the ResolvedToken alone, because `format_token_info_message`
itself performs the metadata provider call (bot.py line 234). -/
theorem composition_deterministic (t : TokenInfo) (meta : MetadataResult) :
    format_token_info_message t meta
      = baseTokenInfoMessage t ++ metadataBlock meta :=
  format_factors t meta

/-- C5 counterexample: the same ResolvedToken composes to different
messages under different states of the metadata provider (a truthy
metadata object versus a failed fetch), so composition is not a pure
function of the ResolvedToken and does reflect its own provider call. -/
theorem composition_not_pure_counterexample :
    format_token_info_message infoEthNoVol (.found ⟨none, none⟩)
      ≠ format_token_info_message infoEthNoVol (.fail "network error") := by
  decide

/-- C7: a failure of the holder-metadata fetch never aborts the
pipeline: the composed message is still produced and merely omits the
holder-metadata block (it equals the base message), and the run
proceeds to the rendering stage exactly as it would with metadata. -/
theorem metadata_failure_tolerated :
    (∀ (t : TokenInfo) (cause : String),
        format_token_info_message t (.fail cause) = baseTokenInfoMessage t)
    ∧ ∀ (addr : String) (env : PipelineEnv) (info : TokenInfo)
        (cause : String),
        ((strStartsWith addr "0x" = true ∧ addr.length ≥ 40)
          ∨ is_base58 addr = true) →
        get_token_info addr env.market = .ok info →
        env.metadata = .fail cause →
        (process_token_address addr env).outcome =
          (match env.render with
           | .ok => Outcome.photo (baseTokenInfoMessage info)
           | .fail resp => Outcome.degradedText
               (renderErrorMessage info.chain resp
                 ++ baseTokenInfoMessage info)) := by
  constructor
  · exact format_fail
  · intro addr env info cause hacc hres hmeta
    rw [process_accepted addr env hacc, hres, hmeta]
    cases hr : env.render with
    | ok =>
      show Outcome.photo (format_token_info_message info (.fail cause))
          = Outcome.photo (baseTokenInfoMessage info)
      rw [format_fail]
    | fail resp =>
      show Outcome.degradedText
            (renderErrorMessage info.chain resp
              ++ format_token_info_message info (.fail cause))
          = Outcome.degradedText
            (renderErrorMessage info.chain resp ++ baseTokenInfoMessage info)
      rw [format_fail]

/-- C7 witness: with the metadata provider failing, the concrete run
still produces the photo reply captioned with the base message. -/
theorem metadata_failure_tolerated_witness :
    (process_token_address addrHex
        ⟨.ok (some [pairNoVol]), .fail "boom", .ok⟩).outcome
      = .photo (baseTokenInfoMessage infoEthNoVol) :=
  metadata_failure_tolerated.2 addrHex
    ⟨.ok (some [pairNoVol]), .fail "boom", .ok⟩ infoEthNoVol "boom"
    (Or.inl ⟨by decide, by decide⟩) rfl rfl

/-- C2: after a successful token resolution, every rendering-provider
failure yields a reply that is exactly the failure reason followed by
the full composed token-info message (reason prepended, both parts
always present); and a JSON error containing "Map not computed. API key
required" yields precisely the "No bubble map data available for this
token." notice as that reason. -/
theorem render_failure_degraded_reply (addr : String) (env : PipelineEnv)
    (info : TokenInfo) (resp : Option ErrBody)
    (hacc : (strStartsWith addr "0x" = true ∧ addr.length ≥ 40)
            ∨ is_base58 addr = true)
    (hres : get_token_info addr env.market = .ok info)
    (hrender : env.render = .fail resp) :
    (process_token_address addr env).outcome =
      .degradedText (renderErrorMessage info.chain resp
        ++ format_token_info_message info env.metadata)
    ∧ ∀ e : String, resp = some (.jsonBody (some e)) →
        strIn "Map not computed. API key required" e = true →
        renderErrorMessage info.chain resp =
          "No bubble map data available for this token.\n\n" := by
  constructor
  · rw [process_accepted addr env hacc, hres, hrender]
  · intro e he hin
    subst he
    simp only [renderErrorMessage]
    rw [if_pos hin]

/-- C2 witness: a concrete run whose rendering request fails with the
"Map not computed. API key required" JSON error replies with the
"No bubble map data available for this token." notice followed by the
full composed message. -/
theorem render_failure_degraded_reply_witness :
    (process_token_address addrHex
        ⟨.ok (some [pairNoVol]), .fail "metadata down",
         .fail (some (.jsonBody
            (some "Map not computed. API key required")))⟩).outcome =
      .degradedText
        (renderErrorMessage "eth"
            (some (.jsonBody (some "Map not computed. API key required")))
          ++ format_token_info_message infoEthNoVol (.fail "metadata down"))
    ∧ renderErrorMessage "eth"
        (some (.jsonBody (some "Map not computed. API key required")))
        = "No bubble map data available for this token.\n\n" := by
  have h := render_failure_degraded_reply addrHex
    ⟨.ok (some [pairNoVol]), .fail "metadata down",
     .fail (some (.jsonBody (some "Map not computed. API key required")))⟩
    infoEthNoVol
    (some (.jsonBody (some "Map not computed. API key required")))
    (Or.inl ⟨by decide, by decide⟩) rfl rfl
  exact ⟨h.1, h.2 _ rfl (by decide)⟩

/-- C6: for every market-data response containing zero pairs, the user
gets exactly the text "No token information found. Please verify the
contract address." and no rendering (image) request is issued. -/
theorem empty_pairs_no_image (addr : String) (env : PipelineEnv)
    (hacc : (strStartsWith addr "0x" = true ∧ addr.length ≥ 40)
            ∨ is_base58 addr = true)
    (hm : env.market = .ok (some [])) :
    process_token_address addr env =
      ⟨.statusEdit
         "No token information found. Please verify the contract address.",
       true, false⟩ := by
  rw [process_accepted addr env hacc, hm]
  rfl

/-- C6 witness: the concrete zero-pairs run for `addrHex`. -/
theorem empty_pairs_no_image_witness :
    process_token_address addrHex ⟨.ok (some []), .empty, .ok⟩ =
      ⟨.statusEdit
         "No token information found. Please verify the contract address.",
       true, false⟩ :=
  empty_pairs_no_image addrHex ⟨.ok (some []), .empty, .ok⟩
    (Or.inl ⟨by decide, by decide⟩) rfl

/-- C9 (amended): for every transport/parse fault in the market lookup,
the user-visible message is "Error fetching token info: " followed by
the stringified cause — the underlying cause is surfaced to the user as
part of the message, not only logged. -/
theorem market_fault_surfaces_cause (addr : String) (env : PipelineEnv)
    (cause : String)
    (hacc : (strStartsWith addr "0x" = true ∧ addr.length ≥ 40)
            ∨ is_base58 addr = true)
    (hm : env.market = .fault cause) :
    (process_token_address addr env).outcome =
      .statusEdit ("Error fetching token info: " ++ cause)
    ∧ strIn cause ("Error fetching token info: " ++ cause) = true := by
  constructor
  · rw [process_accepted addr env hacc, hm]
    rfl
  · exact strIn_append_right _ _

/-- C9 counterexample: at a concrete market fault with cause "boom", the
user-visible message contains the underlying cause, refuting that only a
generic message free of the cause is shown. -/
theorem market_fault_counterexample :
    (process_token_address addrHex ⟨.fault "boom", .empty, .ok⟩).outcome
      = .statusEdit "Error fetching token info: boom"
    ∧ strIn "boom" "Error fetching token info: boom" = true :=
  ⟨rfl, by decide⟩

/-- C9 witness: the amended statement at the same concrete fault. -/
theorem market_fault_surfaces_cause_witness :
    (process_token_address addrHex ⟨.fault "boom", .empty, .ok⟩).outcome
      = .statusEdit ("Error fetching token info: " ++ "boom")
    ∧ strIn "boom" ("Error fetching token info: " ++ "boom") = true :=
  market_fault_surfaces_cause addrHex ⟨.fault "boom", .empty, .ok⟩ "boom"
    (Or.inl ⟨by decide, by decide⟩) rfl

/-- C4: `format_number` renders magnitudes with two-decimal precision and
the smallest applicable suffix among K/M/B/T: the three specified
examples hold, and on each magnitude range the output is the two-decimal
rendering of the value scaled by that range's unit, with that range's
suffix. -/
theorem format_number_spec :
    format_number 1500000 = "1.50M"
    ∧ format_number 999 = "999.00"
    ∧ format_number 2300000000 = "2.30B"
    ∧ (∀ q : ℚ, q < 1000 → format_number q = formatQ2 q)
    ∧ (∀ q : ℚ, 1000 ≤ q → q < 1000000 →
         format_number q = formatQ2 (q / 1000) ++ "K")
    ∧ (∀ q : ℚ, 1000000 ≤ q → q < 1000000000 →
         format_number q = formatQ2 (q / 1000000) ++ "M")
    ∧ (∀ q : ℚ, 1000000000 ≤ q → q < 1000000000000 →
         format_number q = formatQ2 (q / 1000000000) ++ "B")
    ∧ (∀ q : ℚ, 1000000000000 ≤ q →
         format_number q = formatQ2 (q / 1000000000000) ++ "T") := by
  refine ⟨?_, ?_, ?_, ?_, ?_, ?_, ?_, ?_⟩
  · unfold format_number
    rw [if_neg (by norm_num), if_neg (by norm_num), if_pos (by norm_num),
      formatQ2_of_roundQ _ 150 (roundQ_eq _ 150 (by norm_num) (by norm_num))]
    decide
  · unfold format_number
    rw [if_neg (by norm_num), if_neg (by norm_num), if_neg (by norm_num),
      if_neg (by norm_num),
      formatQ2_of_roundQ _ 99900
        (roundQ_eq _ 99900 (by norm_num) (by norm_num))]
    decide
  · unfold format_number
    rw [if_neg (by norm_num), if_pos (by norm_num),
      formatQ2_of_roundQ _ 230 (roundQ_eq _ 230 (by norm_num) (by norm_num))]
    decide
  · intro q h
    unfold format_number
    rw [if_neg (not_le.mpr (by linarith)), if_neg (not_le.mpr (by linarith)),
      if_neg (not_le.mpr (by linarith)), if_neg (not_le.mpr h)]
  · intro q h1 h2
    unfold format_number
    rw [if_neg (not_le.mpr (by linarith)), if_neg (not_le.mpr (by linarith)),
      if_neg (not_le.mpr h2), if_pos h1]
  · intro q h1 h2
    unfold format_number
    rw [if_neg (not_le.mpr (by linarith)), if_neg (not_le.mpr h2),
      if_pos h1]
  · intro q h1 h2
    unfold format_number
    rw [if_neg (not_le.mpr h2), if_pos h1]
  · intro q h
    unfold format_number
    rw [if_pos h]

/-- C4 witness: the K-range clause of the suffix rule applied at 2500. -/
theorem format_number_spec_witness :
    format_number 2500 = formatQ2 (2500 / 1000) ++ "K" :=
  format_number_spec.2.2.2.2.1 2500 (by norm_num) (by norm_num)

/-- C3: the conversation flag has exactly the two claimed transitions:
it only ever becomes `waiting_for = 'token_address'` through the
`/bubblemap` command invoked with zero arguments; from the awaiting
state the very next text message resets it to idle and hands the text to
the pipeline (whose outcome cannot affect the flag); and no other
dispatched update changes the flag. -/
theorem conversation_flag_transitions :
    (∀ (flag : Option String) (e : TgEvent),
        (dispatch flag e).1 = some "token_address" →
          e = .cmdBubblemap [] ∨ flag = some "token_address")
    ∧ (∀ t : String,
        dispatch (some "token_address") (.textMsg t) = (none, true))
    ∧ ∀ (flag : Option String) (e : TgEvent),
        (dispatch flag e).1 ≠ flag →
          (e = .cmdBubblemap []
            ∧ (dispatch flag e).1 = some "token_address")
          ∨ ((∃ t, e = .textMsg t) ∧ flag = some "token_address"
              ∧ (dispatch flag e).1 = none) := by
  refine ⟨?_, ?_, ?_⟩
  · intro flag e h
    cases e with
    | cmdBubblemap args =>
      cases args with
      | nil => exact Or.inl rfl
      | cons a l =>
        exact Or.inr (by simpa [dispatch, bubblemap_command] using h)
    | textMsg t =>
      cases flag with
      | none => simp [dispatch, handle_text_input] at h
      | some w =>
        by_cases hw : w = "token_address"
        · subst hw
          simp [dispatch, handle_text_input] at h
        · simp [dispatch, handle_text_input, hw] at h
    | other => exact Or.inr (by simpa [dispatch] using h)
  · intro t
    simp [dispatch, handle_text_input]
  · intro flag e h
    cases e with
    | cmdBubblemap args =>
      cases args with
      | nil => exact Or.inl ⟨rfl, by simp [dispatch, bubblemap_command]⟩
      | cons a l => exact (h rfl).elim
    | textMsg t =>
      cases flag with
      | none => exact (h rfl).elim
      | some w =>
        by_cases hw : w = "token_address"
        · subst hw
          exact Or.inr ⟨⟨t, rfl⟩, rfl, by simp [dispatch, handle_text_input]⟩
        · have hkeep : (dispatch (some w) (.textMsg t)).1 = some w := by
            simp [dispatch, handle_text_input, hw]
          exact (h hkeep).elim
    | other => exact (h rfl).elim

/-- C3 witness: setting the flag by the zero-argument command, observed
through the first clause at a concrete idle state. -/
theorem conversation_flag_transitions_witness :
    TgEvent.cmdBubblemap [] = TgEvent.cmdBubblemap []
    ∨ (none : Option String) = some "token_address" :=
  conversation_flag_transitions.1 none (.cmdBubblemap []) (by decide)

/-- C8: every string of length < 40 whose base-58 decoding is not exactly
32 bytes is rejected with the invalid-address outcome, with no market
lookup and no image request; and a string is accepted exactly when it
starts with "0x" and has length at least 40, or its base-58 decoding is
exactly 32 bytes. -/
theorem address_validation_rule :
    (∀ s : String, s.length < 40 → is_base58 s = false →
        ∀ env : PipelineEnv,
          process_token_address s env = ⟨.invalidAddress, false, false⟩)
    ∧ ∀ (s : String) (env : PipelineEnv),
        (process_token_address s env).outcome ≠ .invalidAddress ↔
          ((strStartsWith s "0x" = true ∧ s.length ≥ 40)
            ∨ is_base58 s = true) := by
  constructor
  · intro s hlen hb env
    unfold process_token_address
    rw [if_pos]
    exact ⟨fun hx => absurd hx.2 (by omega), by simp [hb]⟩
  · intro s env
    unfold process_token_address
    by_cases hc : ¬ (strStartsWith s "0x" = true ∧ s.length ≥ 40)
        ∧ ¬ is_base58 s = true
    · rw [if_pos hc]
      constructor
      · intro hne
        exact absurd rfl hne
      · intro hor
        rcases hor with hx | hx
        · exact absurd hx hc.1
        · exact absurd hx hc.2
    · rw [if_neg hc]
      have hacc : (strStartsWith s "0x" = true ∧ s.length ≥ 40)
          ∨ is_base58 s = true := by
        by_contra hno
        exact hc ⟨fun hx => hno (Or.inl hx), fun hx => hno (Or.inr hx)⟩
      constructor
      · intro _
        exact hacc
      · intro _
        cases hg : get_token_info s env.market with
        | error e => simp
        | ok info =>
          cases hr : env.render with
          | ok => simp
          | fail r => simp

/-- C8 witness: the concrete short non-base-58 string "abc" is rejected
with no market lookup and no image request. -/
theorem address_validation_rule_witness :
    process_token_address "abc" ⟨.ok none, .empty, .ok⟩
      = ⟨.invalidAddress, false, false⟩ :=
  address_validation_rule.1 "abc" (by decide) (by decide)
    ⟨.ok none, .empty, .ok⟩

/-- `get_token_info_pairs` with its local variables inlined (pure
zeta-reduction of the definition). -/
theorem get_token_info_pairs_def (token_address : String)
    (first : TradingPair) (rest : List TradingPair) :
    get_token_info_pairs token_address first rest =
      match chainMappingGet (strLower
          (((selected_pair (first :: rest)).getD first).chainId.getD "")) with
      | none => .error ("Chain " ++ strLower
          (((selected_pair (first :: rest)).getD first).chainId.getD "")
          ++ " not supported for bubble maps.")
      | some our_chain =>
          .ok { address := token_address
                name := ((((selected_pair (first :: rest)).getD
                    first).baseToken.getD ⟨none, none⟩).name.getD "Unknown")
                symbol := ((((selected_pair (first :: rest)).getD
                    first).baseToken.getD ⟨none, none⟩).symbol.getD "Unknown")
                chain := our_chain
                chain_original := strLower
                  (((selected_pair (first :: rest)).getD
                      first).chainId.getD "")
                price_usd := (((selected_pair (first :: rest)).getD
                    first).priceUsd.getD "Unknown")
                price_native := (((selected_pair (first :: rest)).getD
                    first).priceNative.getD "Unknown")
                liquidity_usd := ((selected_pair (first :: rest)).getD
                    first).liquidity_usd
                market_cap := ((selected_pair (first :: rest)).getD
                    first).marketCap
                fdv := ((selected_pair (first :: rest)).getD first).fdv
                volume_h24 :=
                  if (highest_volume_pair (first :: rest)).2 > 0
                  then some ((highest_volume_pair (first :: rest)).2)
                  else none
                pair_address := (((selected_pair (first :: rest)).getD
                    first).pairAddress.getD "Unknown")
                dex := (((selected_pair (first :: rest)).getD
                    first).dexId.getD "Unknown") } := rfl

/-- C10: for every non-empty pairs list in which no pair reports a
strictly positive 24h volume (even when some pair explicitly reports a
24h volume of 0), `get_token_info` falls back to the first pair, records
the 24h volume as the 'Unknown' placeholder (`none`), and the composed
message's 24h-volume line is therefore omitted (empty). -/
theorem zero_volume_fallback (addr : String) (first : TradingPair)
    (rest : List TradingPair) (chain : String)
    (hall : ∀ p ∈ first :: rest, ∀ v : ℚ, p.volume_h24 = some v → v ≤ 0)
    (hchain : chainMappingGet (strLower (first.chainId.getD ""))
      = some chain) :
    selected_pair (first :: rest) = some first
    ∧ ∃ info : TokenInfo,
        get_token_info addr (.ok (some (first :: rest))) = .ok info
        ∧ info.volume_h24 = none
        ∧ volume_line info = "" := by
  have hmax : maxRep (first :: rest) 0 = 0 := maxRep_eq_of_le _ 0 hall
  have h1 : highest_volume_pair (first :: rest) = (none, 0) := by
    unfold highest_volume_pair
    rw [foldl_selectStep_eq _ none 0, if_neg]
    rw [hmax]
    exact lt_irrefl 0
  have hsel : selected_pair (first :: rest) = some first := by
    unfold selected_pair
    rw [h1]
    rfl
  refine ⟨hsel, ?_⟩
  have hget : get_token_info addr (.ok (some (first :: rest))) = .ok
      { address := addr
        name := ((first.baseToken.getD ⟨none, none⟩).name.getD "Unknown")
        symbol := ((first.baseToken.getD ⟨none, none⟩).symbol.getD "Unknown")
        chain := chain
        chain_original := strLower (first.chainId.getD "")
        price_usd := first.priceUsd.getD "Unknown"
        price_native := first.priceNative.getD "Unknown"
        liquidity_usd := first.liquidity_usd
        market_cap := first.marketCap
        fdv := first.fdv
        volume_h24 := none
        pair_address := first.pairAddress.getD "Unknown"
        dex := first.dexId.getD "Unknown" } := by
    show get_token_info_pairs addr first rest = _
    rw [get_token_info_pairs_def, hsel, h1]
    simp only [Option.getD_some]
    rw [hchain, if_neg (lt_irrefl (0 : ℚ))]
  exact ⟨_, hget, rfl, rfl⟩

/-- C10 witness: a single pair explicitly reporting a 24h volume of 0 is
itself the fallback selection and yields an 'Unknown' volume with the
volume line omitted. -/
theorem zero_volume_fallback_witness :
    selected_pair [pairZeroVol] = some pairZeroVol
    ∧ ∃ info : TokenInfo,
        get_token_info addrHex (.ok (some [pairZeroVol])) = .ok info
        ∧ info.volume_h24 = none
        ∧ volume_line info = "" :=
  zero_volume_fallback addrHex pairZeroVol [] "eth"
    (by
      intro p hp v hv
      rw [List.mem_singleton] at hp
      subst hp
      have h0 : (0 : ℚ) = v :=
        Option.some.inj (show some (0 : ℚ) = some v from hv)
      exact le_of_eq h0.symm)
    (by decide)
